import Mathlib

/-!
# PathPilot lab-analytics core: shallow embedding and verification

This file embeds the derivation logic of the PathPilot clinical lab
intelligence platform (status classification, trend analysis, risk scoring,
organ-system assessment, MELD, deterioration detection) as Lean definitions
and proves the specified properties about them.

Modelling conventions:
* JS numbers are modelled as `ℚ` (all constants in the source are exact
  decimals); the MELD formula, which uses a transcendental logarithm, is
  modelled over `ℝ` with `Real.log`.
* A JS expression that can produce `Infinity`/`-Infinity`/`NaN` (division by
  zero in percent-change computations) is modelled by `JsNum`, with the JS
  comparison semantics (`NaN` compares false, `Infinity` compares large).
* Timestamps (`effectiveDateTime` ISO strings, parsed by `new Date(...)` in
  the source) are modelled as epoch milliseconds `ℤ`; `Date.now()` becomes an
  explicit `now : ℤ` parameter of the clock-reading functions.
* A lab value of TS type `number | string` is `JsValue`; the strings this
  system stores (`'N/A'`) do not parse as numbers, so `parseNum` sends the
  string case to `none` (mirroring `parseFloat` returning `NaN` there).
-/

/-- Status of a classified lab result (`'normal' | 'critical' | 'abnormal'`). -/
inductive Status where
  | normal
  | abnormal
  | critical
deriving DecidableEq, Repr

/-- Direction of a per-analyte trend (`'rising' | 'falling' | 'stable'`). -/
inductive TrendDir where
  | rising
  | falling
  | stable
deriving DecidableEq, Repr

/-- Organ-system trend (`'worsening' | 'stable' | 'improving'`). -/
inductive SysTrend where
  | worsening
  | stable
  | improving
deriving DecidableEq, Repr

/-- Composite risk level (`'critical' | 'high' | 'moderate' | 'low'`). -/
inductive Level where
  | critical
  | high
  | moderate
  | low
deriving DecidableEq, Repr

/-- A lab value of TS type `number | string`. The string case is an
`'N/A'`-style marker that does not parse as a number. -/
inductive JsValue where
  | num (q : ℚ)
  | str (s : String)
deriving DecidableEq, Repr

/-- `typeof value === 'number'`. -/
def JsValue.isNum : JsValue → Bool
  | .num _ => true
  | .str _ => false

/-- The numeric content after a `value as number` cast (only applied by the
source after a `typeof` check, so the string case is unreachable there). -/
def JsValue.toNum : JsValue → ℚ
  | .num q => q
  | .str _ => 0

/-- `parseFloat` on a lab value: a number parses to itself, the opaque string
marker parses to `NaN`, modelled as `none`. -/
def parseNum : JsValue → Option ℚ
  | .num q => some q
  | .str _ => none

/-- A JS number extended with the IEEE special values that division by zero
produces: `Infinity`, `-Infinity` and `NaN`. -/
inductive JsNum where
  | fin (q : ℚ)
  | posInf
  | negInf
  | nan
deriving DecidableEq, Repr

/-- `Math.abs x < c` with JS semantics: comparisons against `NaN` are false,
and the absolute value of an infinity is `Infinity`, never `< c`. -/
def JsNum.absLt (x : JsNum) (c : ℚ) : Bool :=
  match x with
  | .fin q => decide (|q| < c)
  | _ => false

/-- `c < x` with JS semantics: `NaN` compares false, `Infinity` is above
every finite bound, `-Infinity` below. -/
def JsNum.gtb (x : JsNum) (c : ℚ) : Bool :=
  match x with
  | .fin q => decide (c < q)
  | .posInf => true
  | .negInf => false
  | .nan => false

/-- `(d / p) * 100` as computed by JS: for `p = 0` this is `Infinity`,
`-Infinity` or `NaN` depending on the sign of `d`. -/
def jsPercent (d p : ℚ) : JsNum :=
  if p = 0 then
    if 0 < d then .posInf else if d < 0 then .negInf else .nan
  else
    .fin (d / p * 100)

/-- A reference range (`referenceRange?.[0]` of a FHIR observation): optional
numeric `low`/`high` bounds. -/
structure RefRange where
  low : Option ℚ := none
  high : Option ℚ := none
deriving DecidableEq, Repr

/-- A normalized lab observation (the fields of `LabResult` the derivation
logic reads). `effectiveDateTime` is epoch milliseconds. -/
structure LabResult where
  code : String
  name : String
  value : JsValue
  unit : String
  status : Status
  effectiveDateTime : ℤ
deriving DecidableEq, Repr

/-- Substring containment on character lists (`String.prototype.includes`). -/
def charsContain (hay pat : List Char) : Bool :=
  hay.tails.any (fun t => pat.isPrefixOf t)

/-- `hay.includes(pat)` for strings. -/
def strContains (hay pat : String) : Bool :=
  charsContain hay.data pat.data

/-- ASCII lowercase of a string (`String.prototype.toLowerCase`; analyte
names and codes are ASCII). -/
def toLowerStr (s : String) : String :=
  ⟨s.data.map Char.toLower⟩

/-- `hay.toLowerCase().includes(key)` — the source always lowercases the
haystack and uses an (already lowercase) literal key. -/
def containsLC (hay key : String) : Bool :=
  strContains (toLowerStr hay) key

/-! ## Status Classifier (`FHIRClient.transformObservation`, status part) -/

/-- The `else if (refRange.low && value < refRange.low.value)` branch of the
reference-range rule. -/
def lowStatus (v : ℚ) (low : Option ℚ) : Status :=
  match low with
  | some lo => if v < lo then (if v < lo * 0.5 then .critical else .abnormal) else .normal
  | none => .normal

/-- The reference-range rule of `transformObservation`: compares the numeric
value against the `high` bound (critical above `high × 1.5`, abnormal above
`high`), else against the `low` bound (critical below `low × 0.5`, abnormal
below `low`); otherwise `normal`. Absent value or range yields `normal`. -/
def rangeStatus (value : Option ℚ) (refRange : Option RefRange) : Status :=
  match value, refRange with
  | some v, some r =>
    match r.high with
    | some h => if h < v then (if h * 1.5 < v then .critical else .abnormal) else lowStatus v r.low
    | none => lowStatus v r.low
  | _, _ => .normal

/-- The fixed absolute critical-bound table of `transformObservation`, keyed
by lowercase analyte-name substring, as `(key, low?, high?)`. (All bounds are
nonzero, so the JS truthiness guards coincide with `Option` presence.) -/
def criticalRanges : List (String × Option ℚ × Option ℚ) :=
  [("potassium", some 2.5, some 6.5),
   ("sodium", some 120, some 160),
   ("glucose", some 40, some 500),
   ("hemoglobin", some 5, some 20),
   ("platelet", some 20, some 1000),
   ("creatinine", none, some 10)]

/-- The full status computation of `FHIRClient.transformObservation`: the
reference-range rule, then the absolute critical-bound table (first matching
key by case-insensitive substring; forces `critical` when a defined bound is
violated). -/
def transformStatus (labName : String) (value : Option ℚ) (refRange : Option RefRange) : Status :=
  let s := rangeStatus value refRange
  match criticalRanges.find? (fun e => containsLC labName e.1) with
  | some (_, lo, hi) =>
    match value with
    | some v =>
      if (hi.any (fun h => decide (h < v))) || (lo.any (fun l => decide (v < l))) then .critical else s
    | none => s
  | none => s

/-! ## Trend Analyzer (`LabProcessor.processLabTrends`) -/

/-- One emitted per-analyte trend (`LabTrend`). `data` points are
`(timestamp, value, status)`; `deltaPercent` keeps the JS special values. -/
structure LabTrend where
  labName : String
  code : String
  unit : String
  data : List (ℤ × ℚ × Status)
  currentValue : ℚ
  previousValue : Option ℚ
  delta : Option ℚ
  deltaPercent : Option JsNum
  trend : TrendDir
deriving DecidableEq, Repr

/-- `LabProcessor.groupLabsByType`: group results by display name, keeping
first-appearance order of groups and input order inside each group. -/
def groupLabsByType (labResults : List LabResult) : List (String × List LabResult) :=
  labResults.foldl
    (fun grouped r =>
      if grouped.any (fun p => p.1 = r.name) then
        grouped.map (fun p => if p.1 = r.name then (p.1, p.2 ++ [r]) else p)
      else
        grouped ++ [(r.name, [r])])
    []

/-- Insert into a list already sorted by descending timestamp, after every
earlier element with a greater-or-equal timestamp (stability of JS sort). -/
def insertDesc (x : LabResult) : List LabResult → List LabResult
  | [] => [x]
  | y :: ys =>
    if y.effectiveDateTime ≤ x.effectiveDateTime then x :: y :: ys else y :: insertDesc x ys

/-- `results.sort((a, b) => timeB - timeA)`: stable sort by descending
timestamp. -/
def sortByTimeDesc : List LabResult → List LabResult
  | [] => []
  | x :: xs => insertDesc x (sortByTimeDesc xs)

/-- The trend classification of `processLabTrends`: stable without a
previous value; else stable when `|deltaPercent| < 5`, rising when
`delta > 0`, falling otherwise. -/
def classifyTrend (currentValue : ℚ) (previousValue : Option ℚ) : TrendDir :=
  match previousValue with
  | none => .stable
  | some p =>
    if (jsPercent (currentValue - p) p).absLt 5 then .stable
    else if 0 < currentValue - p then .rising
    else .falling

/-- The per-group body of `processLabTrends`: sort descending by time, keep
numeric values, skip empty groups, classify the change between the two most
recent numeric values, and emit up to 10 points oldest→newest. -/
def mkTrendOf (labName : String) (results : List LabResult) : Option LabTrend :=
  let sortedResults := sortByTimeDesc results
  let numericResults := sortedResults.filter (fun r => r.value.isNum)
  match numericResults with
  | [] => none
  | cur :: rest =>
    let currentValue := cur.value.toNum
    let previousValue := rest.head?.map (fun r => r.value.toNum)
    let delta := previousValue.map (fun p => currentValue - p)
    let deltaPercent := previousValue.map (fun p => jsPercent (currentValue - p) p)
    let trend := classifyTrend currentValue previousValue
    some
      { labName := labName
        code := (sortedResults.head?.map (fun r => r.code)).getD ""
        unit := (sortedResults.head?.map (fun r => r.unit)).getD ""
        data := (((cur :: rest).take 10).map (fun r => (r.effectiveDateTime, r.value.toNum, r.status))).reverse
        currentValue := currentValue
        previousValue := previousValue
        delta := delta
        deltaPercent := deltaPercent
        trend := trend }

/-- `LabProcessor.processLabTrends`. (The source's in-place `sort` means the
group's first element read afterwards is the sorted head; `mkTrendOf` models
that directly.) -/
def processLabTrends (labResults : List LabResult) : List LabTrend :=
  (groupLabsByType labResults).filterMap (fun p => mkTrendOf p.1 p.2)

/-! ## Risk Scorer (`RiskScoreCalculator`) -/

/-- A contributing risk factor. -/
structure RiskFactor where
  name : String
  weight : ℚ
  value : String
  contribution : ℕ
deriving DecidableEq, Repr

/-- The composite risk score. -/
structure RiskScore where
  score : ℕ
  level : Level
  factors : List RiskFactor
deriving DecidableEq, Repr

/-- An organ-system risk entry. -/
structure OrganSystemRisk where
  system : String
  score : ℕ
  trend : SysTrend
  markers : List String
deriving DecidableEq, Repr

/-- High-risk marker detection result (`{ score, markers }`). -/
structure MarkerResult where
  score : ℕ
  markers : List String
deriving DecidableEq, Repr

/-- The 48-hour recency filter of `calculatePatientRisk`:
`daysSince = (now − labDate) / (1000·60·60·24) ≤ 2`. -/
def recentFilter (labs : List LabResult) (now : ℤ) : List LabResult :=
  labs.filter (fun lab =>
    decide ((((now : ℚ) - (lab.effectiveDateTime : ℚ)) / (1000 * 60 * 60 * 24)) ≤ 2))

/-- Count of results with status `critical`. -/
def countCritical (labs : List LabResult) : ℕ :=
  (labs.filter (fun l => l.status = Status.critical)).length

/-- Count of results with status exactly `abnormal`. -/
def countAbnormalStrict (labs : List LabResult) : ℕ :=
  (labs.filter (fun l => l.status = Status.abnormal)).length

/-- Count of results with status other than `normal`. -/
def countNonNormal (labs : List LabResult) : ℕ :=
  (labs.filter (fun l => l.status ≠ Status.normal)).length

/-- The AKI pattern of `checkHighRiskMarkers`: the first creatinine-coded
result is non-normal and parses above 2.0. -/
def akiFlag (labs : List LabResult) : Bool :=
  match labs.find? (fun l => containsLC l.code "creatinine") with
  | some c =>
    if c.status ≠ Status.normal then
      match parseNum c.value with
      | some v => decide (2 < v)
      | none => false
    else false
  | none => false

/-- The sepsis pattern: a critical wbc/white result, or a lactate result
parsing above 2. -/
def sepsisFlag (labs : List LabResult) : Bool :=
  (match labs.find? (fun l => containsLC l.code "wbc" || containsLC l.code "white") with
   | some w => w.status = Status.critical
   | none => false) ||
  (match labs.find? (fun l => containsLC l.code "lactate") with
   | some la =>
     match parseNum la.value with
     | some v => decide (2 < v)
     | none => false
   | none => false)

/-- The liver-dysfunction pattern: a non-normal bilirubin or alt/alanine
result. -/
def hepaticFlag (labs : List LabResult) : Bool :=
  (match labs.find? (fun l => containsLC l.code "bilirubin") with
   | some b => b.status ≠ Status.normal
   | none => false) ||
  (match labs.find? (fun l => containsLC l.code "alt" || containsLC l.code "alanine") with
   | some a => a.status ≠ Status.normal
   | none => false)

/-- The coagulopathy pattern: an inr result parsing above 2, or a
platelet/plt result parsing below 50. -/
def coagFlag (labs : List LabResult) : Bool :=
  (match labs.find? (fun l => containsLC l.code "inr") with
   | some i =>
     match parseNum i.value with
     | some v => decide (2 < v)
     | none => false
   | none => false) ||
  (match labs.find? (fun l => containsLC l.code "platelet" || containsLC l.code "plt") with
   | some p =>
     match parseNum p.value with
     | some v => decide (v < 50)
     | none => false
   | none => false)

/-- `RiskScoreCalculator.checkHighRiskMarkers`: the four independent
high-risk lab patterns, each matched by `find?` over the window (so each
looks only at the first result whose code contains the pattern's key). -/
def checkHighRiskMarkers (labs : List LabResult) : MarkerResult :=
  { score :=
      (if akiFlag labs then 15 else 0) + ((if sepsisFlag labs then 20 else 0) +
      ((if hepaticFlag labs then 10 else 0) + (if coagFlag labs then 15 else 0)))
    markers :=
      (if akiFlag labs then ["AKI Risk"] else []) ++ ((if sepsisFlag labs then ["Sepsis Risk"] else []) ++
      ((if hepaticFlag labs then ["Hepatic Dysfunction"] else []) ++ (if coagFlag labs then ["Coagulopathy"] else []))) }

/-- The level thresholds of `calculatePatientRisk`, applied to the unclamped
total. -/
def levelOf (totalScore : ℕ) : Level :=
  if 80 ≤ totalScore then .critical
  else if 60 ≤ totalScore then .high
  else if 40 ≤ totalScore then .moderate
  else .low

/-- The factor list built by `calculatePatientRisk`: each factor is pushed
only when its contribution is positive. -/
def riskFactors (labs : List LabResult) (now : ℤ) : List RiskFactor :=
  let recentLabs := recentFilter labs now
  let criticalCount := countCritical recentLabs
  let abnormalCount := countAbnormalStrict recentLabs
  let highRiskMarkers := checkHighRiskMarkers recentLabs
  (if 0 < criticalCount then
    [{ name := "Critical Values", weight := 0.35,
       value := toString criticalCount ++ " critical",
       contribution := min (criticalCount * 15) 45 }]
   else []) ++
  ((if 0 < abnormalCount then
    [{ name := "Abnormal Values", weight := 0.25,
       value := toString abnormalCount ++ " abnormal",
       contribution := min (abnormalCount * 3) 30 }]
   else []) ++
  (if 0 < highRiskMarkers.score then
    [{ name := "High-Risk Markers", weight := 0.40,
       value := String.intercalate ", " highRiskMarkers.markers,
       contribution := highRiskMarkers.score }]
   else []))

/-- The `totalScore` accumulated by `calculatePatientRisk`: each contribution
is added exactly when its factor is pushed. -/
def riskTotalScore (labs : List LabResult) (now : ℤ) : ℕ :=
  let recentLabs := recentFilter labs now
  let criticalCount := countCritical recentLabs
  let abnormalCount := countAbnormalStrict recentLabs
  let highRiskMarkers := checkHighRiskMarkers recentLabs
  (if 0 < criticalCount then min (criticalCount * 15) 45 else 0) +
  ((if 0 < abnormalCount then min (abnormalCount * 3) 30 else 0) +
  (if 0 < highRiskMarkers.score then highRiskMarkers.score else 0))

/-- `RiskScoreCalculator.calculatePatientRisk`: the accumulated total is
clamped to 100 for the score, and the (unclamped) total fixes the level. -/
def calculatePatientRisk (labs : List LabResult) (now : ℤ) : RiskScore :=
  { score := min (riskTotalScore labs now) 100
    level := levelOf (riskTotalScore labs now)
    factors := riskFactors labs now }

/-! ## Organ System Assessor (`RiskScoreCalculator.calculateOrganSystemRisks`) -/

/-- Renal-system match: code contains creatinine/bun/egfr. -/
def renalFilter (labs : List LabResult) : List LabResult :=
  labs.filter (fun l =>
    containsLC l.code "creatinine" || containsLC l.code "bun" || containsLC l.code "egfr")

/-- Cardiac-system match: code contains troponin/bnp/ck. -/
def cardiacFilter (labs : List LabResult) : List LabResult :=
  labs.filter (fun l =>
    containsLC l.code "troponin" || containsLC l.code "bnp" || containsLC l.code "ck")

/-- Hepatic-system match: code contains alt/ast/bilirubin/albumin. -/
def hepaticFilter (labs : List LabResult) : List LabResult :=
  labs.filter (fun l =>
    containsLC l.code "alt" || containsLC l.code "ast" ||
    containsLC l.code "bilirubin" || containsLC l.code "albumin")

/-- Trend shared by the three organ-system assessors. -/
def sysTrendOf (abnormalCount criticalCount : ℕ) : SysTrend :=
  if 0 < criticalCount then .worsening else if 0 < abnormalCount then .stable else .improving

/-- `RiskScoreCalculator.assessRenalRisk`. -/
def assessRenalRisk (labs : List LabResult) : OrganSystemRisk :=
  let abnormalCount := countNonNormal labs
  let criticalCount := countCritical labs
  { system := "Renal"
    score := min (abnormalCount * 10 + criticalCount * 20) 100
    trend := sysTrendOf abnormalCount criticalCount
    markers := labs.map (fun l => l.name) }

/-- `RiskScoreCalculator.assessCardiacRisk`. -/
def assessCardiacRisk (labs : List LabResult) : OrganSystemRisk :=
  let abnormalCount := countNonNormal labs
  let criticalCount := countCritical labs
  { system := "Cardiac"
    score := min (abnormalCount * 15 + criticalCount * 25) 100
    trend := sysTrendOf abnormalCount criticalCount
    markers := labs.map (fun l => l.name) }

/-- `RiskScoreCalculator.assessHepaticRisk`. -/
def assessHepaticRisk (labs : List LabResult) : OrganSystemRisk :=
  let abnormalCount := countNonNormal labs
  let criticalCount := countCritical labs
  { system := "Hepatic"
    score := min (abnormalCount * 8 + criticalCount * 18) 100
    trend := sysTrendOf abnormalCount criticalCount
    markers := labs.map (fun l => l.name) }

/-- `RiskScoreCalculator.calculateOrganSystemRisks`: assess each of the three
systems, pushing an entry only when the system's filter is nonempty. -/
def calculateOrganSystemRisks (labs : List LabResult) : List OrganSystemRisk :=
  (if 0 < (renalFilter labs).length then [assessRenalRisk (renalFilter labs)] else []) ++
  ((if 0 < (cardiacFilter labs).length then [assessCardiacRisk (cardiacFilter labs)] else []) ++
  (if 0 < (hepaticFilter labs).length then [assessHepaticRisk (hepaticFilter labs)] else []))

/-! ## MELD Calculator (`RiskScoreCalculator.calculateMELD`) -/

/-- The raw (un-clamped, un-rounded) MELD value over the reals:
`3.78·ln(max(bilirubin,1)) + 11.2·ln(max(inr,1)) + 9.57·ln(max(creatinine,1)) + 6.43`. -/
noncomputable def meldRaw (bv iv cv : ℚ) : ℝ :=
  3.78 * Real.log (max (bv : ℝ) 1) + 11.2 * Real.log (max (iv : ℝ) 1) +
    9.57 * Real.log (max (cv : ℝ) 1) + 6.43

/-- `RiskScoreCalculator.calculateMELD`: requires a (first) bilirubin-, inr-
and creatinine-coded result, each with a numeric value; otherwise `none`.
The value is the raw MELD clamped to `[6, 40]` and rounded
(`Math.round(Math.min(Math.max(meld, 6), 40))`). -/
noncomputable def calculateMELD (labs : List LabResult) : Option ℤ :=
  match labs.find? (fun l => containsLC l.code "bilirubin"),
        labs.find? (fun l => containsLC l.code "inr"),
        labs.find? (fun l => containsLC l.code "creatinine") with
  | some bilirubin, some inr, some creatinine =>
    match parseNum bilirubin.value, parseNum inr.value, parseNum creatinine.value with
    | some bv, some iv, some cv => some (round (min (max (meldRaw bv iv cv) 6) 40))
    | _, _, _ => none
  | _, _, _ => none

/-! ## Deterioration Detector (`RiskScoreCalculator.detectDeterioration`) -/

/-- The per-current-result contribution to the worsening count: match the
first previous result of the same code (skip when absent), `+1` for a status
escalation (to critical from non-critical, else to abnormal from normal),
plus `+1` each for a creatinine-coded increase above 25% and a lactate-coded
increase above 20% (JS percent semantics for a zero previous value). -/
def worseningOf (previousLabs : List LabResult) (currentLab : LabResult) : ℕ :=
  match previousLabs.find? (fun p => p.code = currentLab.code) with
  | none => 0
  | some previousLab =>
    let statusInc : ℕ :=
      if currentLab.status = Status.critical ∧ previousLab.status ≠ Status.critical then 1
      else if currentLab.status = Status.abnormal ∧ previousLab.status = Status.normal then 1
      else 0
    let numericInc : ℕ :=
      match parseNum currentLab.value, parseNum previousLab.value with
      | some cv, some pv =>
        let percentChange := jsPercent (cv - pv) pv
        (if containsLC currentLab.code "creatinine" && percentChange.gtb 25 then 1 else 0) +
        (if containsLC currentLab.code "lactate" && percentChange.gtb 20 then 1 else 0)
      | _, _ => 0
    statusInc + numericInc

/-- `RiskScoreCalculator.detectDeterioration`: `false` without a baseline,
else accumulate the worsening count over current labs and compare with 3. -/
def detectDeterioration (currentLabs previousLabs : List LabResult) : Bool :=
  if previousLabs.length = 0 then false
  else
    let worseningCount :=
      currentLabs.foldl (fun acc currentLab => acc + worseningOf previousLabs currentLab) 0
    decide (3 ≤ worseningCount)

/-! ## Weekly summary (`LabProcessor.getRecentLabsSummary`) -/

/-- The 7-day filter of `getRecentLabsSummary` (`labDate > now − 7 days`,
with the calendar-day subtraction modelled in milliseconds). -/
def weekFilter (labs : List LabResult) (now : ℤ) : List LabResult :=
  labs.filter (fun lab => decide (now - 7 * 86400000 < lab.effectiveDateTime))

/-- `LabProcessor.getRecentLabsSummary`: a one-line summary of the past
week's results. -/
def getRecentLabsSummary (labs : List LabResult) (now : ℤ) : String :=
  let recentLabs := weekFilter labs now
  let critical := countCritical recentLabs
  let abnormal := countAbnormalStrict recentLabs
  let cs := if 1 < critical then "s" else ""
  let as' := if 1 < abnormal then "s" else ""
  if 0 < critical then
    "⚠️ " ++ toString critical ++ " critical lab value" ++ cs ++
      " in the past week requiring immediate attention."
  else if 0 < abnormal then
    toString abnormal ++ " abnormal lab value" ++ as' ++ " in the past week requiring review."
  else if 0 < recentLabs.length then
    "✓ All " ++ toString recentLabs.length ++ " recent lab values are within normal limits."
  else
    "No recent lab results in the past week."

/-! ## Helper lemmas -/

/-- Membership in a conditionally-pushed singleton. -/
theorem mem_ite_singleton {α : Type} {c : Prop} [Decidable c] {a x : α} :
    (a ∈ (if c then [x] else ([] : List α))) ↔ c ∧ a = x := by
  split <;> simp_all

/-- Critical results are a subset of the non-normal ones. -/
theorem countCritical_le_countNonNormal (labs : List LabResult) :
    countCritical labs ≤ countNonNormal labs := by
  induction labs with
  | nil => simp [countCritical, countNonNormal]
  | cons x xs ih =>
    unfold countCritical countNonNormal at *
    cases hx : x.status <;> simp [List.filter_cons, hx] at ih ⊢ <;> omega

/-- Non-normal results split exactly into the strictly-abnormal and the
critical ones. -/
theorem countNonNormal_eq_split (labs : List LabResult) :
    countNonNormal labs = countAbnormalStrict labs + countCritical labs := by
  induction labs with
  | nil => simp [countCritical, countNonNormal, countAbnormalStrict]
  | cons x xs ih =>
    unfold countCritical countNonNormal countAbnormalStrict at *
    cases hx : x.status <;> simp [List.filter_cons, hx] at ih ⊢ <;> omega

/-- The organ-system trend rule, assuming criticals are among the
non-normals. -/
theorem sysTrendOf_spec (a c : ℕ) (hca : c ≤ a) :
    (sysTrendOf a c = SysTrend.worsening ↔ 0 < c) ∧
    (sysTrendOf a c = SysTrend.stable ↔ c = 0 ∧ 0 < a) ∧
    (sysTrendOf a c = SysTrend.improving ↔ a = 0) := by
  unfold sysTrendOf
  split_ifs with h1 h2 <;> refine ⟨?_, ?_, ?_⟩ <;> simp <;> omega

/-! ## Claim C10 -/

/-- Claim C10: in every organ-system assessment, a result with status
critical is counted both in `abnormalCount` (all non-normal results) and in
`criticalCount`, so the non-normal count splits into strictly-abnormal plus
critical, and a single critical result contributes `wA + wC` points to each
system score (30 Renal, 40 Cardiac, 26 Hepatic). -/
theorem organ_counts_double_count (labs : List LabResult) (l : LabResult) :
    countNonNormal labs = countAbnormalStrict labs + countCritical labs ∧
    (l.status = Status.critical →
      (assessRenalRisk [l]).score = 30 ∧
      (assessCardiacRisk [l]).score = 40 ∧
      (assessHepaticRisk [l]).score = 26) := by
  refine ⟨countNonNormal_eq_split labs, fun h => ?_⟩
  refine ⟨?_, ?_, ?_⟩ <;>
    simp [assessRenalRisk, assessCardiacRisk, assessHepaticRisk,
      countNonNormal, countCritical, List.filter_cons, h]

/-- A concrete critical lab result (time 0). -/
def critLab : LabResult :=
  { code := "creatinine", name := "Creatinine", value := .num 3,
    unit := "mg/dL", status := .critical, effectiveDateTime := 0 }

/-- Witness for C10 at a concrete critical result. -/
theorem organ_counts_double_count_witness :
    countNonNormal [critLab] = countAbnormalStrict [critLab] + countCritical [critLab] ∧
    (assessRenalRisk [critLab]).score = 30 ∧
    (assessCardiacRisk [critLab]).score = 40 ∧
    (assessHepaticRisk [critLab]).score = 26 :=
  ⟨(organ_counts_double_count [critLab] critLab).1,
   (organ_counts_double_count [critLab] critLab).2 rfl⟩

/-! ## Claim C8 -/

/-- Claim C8: `calculateOrganSystemRisks` emits a system only when at least
one result matches its analyte filter (systems with no matching results are
omitted); each emitted entry carries the matched labs' names as markers, a
score of `min(abnormalCount·wA + criticalCount·wC, 100)` with the per-system
weights (Renal 10/20, Cardiac 15/25, Hepatic 8/18), and a trend that is
worsening iff some matched result is critical, stable iff none is critical
but some is non-normal, improving iff all are normal. -/
theorem calculateOrganSystemRisks_spec (labs : List LabResult) :
    (∀ s ∈ calculateOrganSystemRisks labs,
      ∃ ls wA wC, 0 < ls.length ∧
        ((s.system = "Renal" ∧ ls = renalFilter labs ∧ wA = 10 ∧ wC = 20) ∨
         (s.system = "Cardiac" ∧ ls = cardiacFilter labs ∧ wA = 15 ∧ wC = 25) ∨
         (s.system = "Hepatic" ∧ ls = hepaticFilter labs ∧ wA = 8 ∧ wC = 18)) ∧
        s.score = min (countNonNormal ls * wA + countCritical ls * wC) 100 ∧
        s.markers = ls.map (fun l => l.name) ∧
        (s.trend = SysTrend.worsening ↔ 0 < countCritical ls) ∧
        (s.trend = SysTrend.stable ↔ countCritical ls = 0 ∧ 0 < countNonNormal ls) ∧
        (s.trend = SysTrend.improving ↔ countNonNormal ls = 0)) ∧
    (0 < (renalFilter labs).length →
      ∃ s ∈ calculateOrganSystemRisks labs, s.system = "Renal") ∧
    (0 < (cardiacFilter labs).length →
      ∃ s ∈ calculateOrganSystemRisks labs, s.system = "Cardiac") ∧
    (0 < (hepaticFilter labs).length →
      ∃ s ∈ calculateOrganSystemRisks labs, s.system = "Hepatic") := by
  refine ⟨?_, ?_, ?_, ?_⟩
  · intro s hs
    unfold calculateOrganSystemRisks at hs
    rcases List.mem_append.mp hs with h | h'
    · rcases mem_ite_singleton.mp h with ⟨hpos, rfl⟩
      exact ⟨renalFilter labs, 10, 20, hpos, Or.inl ⟨rfl, rfl, rfl, rfl⟩, rfl, rfl,
        sysTrendOf_spec _ _ (countCritical_le_countNonNormal _)⟩
    · rcases List.mem_append.mp h' with h | h
      · rcases mem_ite_singleton.mp h with ⟨hpos, rfl⟩
        exact ⟨cardiacFilter labs, 15, 25, hpos, Or.inr (Or.inl ⟨rfl, rfl, rfl, rfl⟩), rfl, rfl,
          sysTrendOf_spec _ _ (countCritical_le_countNonNormal _)⟩
      · rcases mem_ite_singleton.mp h with ⟨hpos, rfl⟩
        exact ⟨hepaticFilter labs, 8, 18, hpos, Or.inr (Or.inr ⟨rfl, rfl, rfl, rfl⟩), rfl, rfl,
          sysTrendOf_spec _ _ (countCritical_le_countNonNormal _)⟩
  · intro hr
    refine ⟨assessRenalRisk (renalFilter labs), ?_, rfl⟩
    unfold calculateOrganSystemRisks
    exact List.mem_append.mpr (Or.inl (mem_ite_singleton.mpr ⟨hr, rfl⟩))
  · intro hc
    refine ⟨assessCardiacRisk (cardiacFilter labs), ?_, rfl⟩
    unfold calculateOrganSystemRisks
    exact List.mem_append.mpr (Or.inr (List.mem_append.mpr
      (Or.inl (mem_ite_singleton.mpr ⟨hc, rfl⟩))))
  · intro hh
    refine ⟨assessHepaticRisk (hepaticFilter labs), ?_, rfl⟩
    unfold calculateOrganSystemRisks
    exact List.mem_append.mpr (Or.inr (List.mem_append.mpr
      (Or.inr (mem_ite_singleton.mpr ⟨hh, rfl⟩))))

/-- Witness for C8: one critical creatinine result yields exactly the Renal
entry, and the theorem's conclusions hold for it. -/
theorem calculateOrganSystemRisks_spec_witness :
    (assessRenalRisk (renalFilter [critLab]) ∈ calculateOrganSystemRisks [critLab]) ∧
    (∃ ls wA wC, 0 < ls.length ∧
      (((assessRenalRisk (renalFilter [critLab])).system = "Renal" ∧
          ls = renalFilter [critLab] ∧ wA = 10 ∧ wC = 20) ∨
       ((assessRenalRisk (renalFilter [critLab])).system = "Cardiac" ∧
          ls = cardiacFilter [critLab] ∧ wA = 15 ∧ wC = 25) ∨
       ((assessRenalRisk (renalFilter [critLab])).system = "Hepatic" ∧
          ls = hepaticFilter [critLab] ∧ wA = 8 ∧ wC = 18)) ∧
      (assessRenalRisk (renalFilter [critLab])).score =
        min (countNonNormal ls * wA + countCritical ls * wC) 100 ∧
      (assessRenalRisk (renalFilter [critLab])).markers = ls.map (fun l => l.name) ∧
      ((assessRenalRisk (renalFilter [critLab])).trend = SysTrend.worsening ↔
        0 < countCritical ls) ∧
      ((assessRenalRisk (renalFilter [critLab])).trend = SysTrend.stable ↔
        countCritical ls = 0 ∧ 0 < countNonNormal ls) ∧
      ((assessRenalRisk (renalFilter [critLab])).trend = SysTrend.improving ↔
        countNonNormal ls = 0)) := by
  have hmem : assessRenalRisk (renalFilter [critLab]) ∈ calculateOrganSystemRisks [critLab] := by
    unfold calculateOrganSystemRisks
    refine List.mem_append.mpr (Or.inl (mem_ite_singleton.mpr ⟨?_, rfl⟩))
    decide
  exact ⟨hmem, (calculateOrganSystemRisks_spec [critLab]).1 _ hmem⟩

/-! ## Claim C1 -/

/-- The level breakpoints, read against the clamped score: clamping at 100
does not cross any breakpoint. -/
theorem levelOf_min_spec (t : ℕ) :
    (levelOf t = Level.critical ↔ 80 ≤ min t 100) ∧
    (levelOf t = Level.high ↔ 60 ≤ min t 100 ∧ min t 100 < 80) ∧
    (levelOf t = Level.moderate ↔ 40 ≤ min t 100 ∧ min t 100 < 60) ∧
    (levelOf t = Level.low ↔ min t 100 < 40) := by
  unfold levelOf
  split_ifs <;> refine ⟨?_, ?_, ?_, ?_⟩ <;> simp <;> omega

/-- The accumulated total equals the sum of the pushed factor
contributions. -/
theorem riskTotalScore_eq_sum (labs : List LabResult) (now : ℤ) :
    riskTotalScore labs now =
      ((riskFactors labs now).map (fun f => f.contribution)).sum := by
  by_cases hc : 0 < countCritical (recentFilter labs now) <;>
  by_cases ha : 0 < countAbnormalStrict (recentFilter labs now) <;>
  by_cases hm : 0 < (checkHighRiskMarkers (recentFilter labs now)).score <;>
    simp [riskTotalScore, riskFactors, hc, ha, hm]

/-- Claim C1: for every input collection, the risk score equals the sum of
the listed factor contributions clamped to 100 (hence lies in `[0,100]`), the
level matches the fixed breakpoints against the returned score
(critical ≥ 80 > high ≥ 60 > moderate ≥ 40 > low), and a window of exactly 2
critical and 1 abnormal results with no marker pattern triggered scores 33
with level low. -/
theorem calculatePatientRisk_spec (labs : List LabResult) (now : ℤ) :
    (calculatePatientRisk labs now).score =
      min (((calculatePatientRisk labs now).factors.map (fun f => f.contribution)).sum) 100 ∧
    ((calculatePatientRisk labs now).level = Level.critical ↔
      80 ≤ (calculatePatientRisk labs now).score) ∧
    ((calculatePatientRisk labs now).level = Level.high ↔
      60 ≤ (calculatePatientRisk labs now).score ∧ (calculatePatientRisk labs now).score < 80) ∧
    ((calculatePatientRisk labs now).level = Level.moderate ↔
      40 ≤ (calculatePatientRisk labs now).score ∧ (calculatePatientRisk labs now).score < 60) ∧
    ((calculatePatientRisk labs now).level = Level.low ↔
      (calculatePatientRisk labs now).score < 40) ∧
    (countCritical (recentFilter labs now) = 2 →
      countAbnormalStrict (recentFilter labs now) = 1 →
      (checkHighRiskMarkers (recentFilter labs now)).score = 0 →
      (calculatePatientRisk labs now).score = 33 ∧
        (calculatePatientRisk labs now).level = Level.low) := by
  obtain ⟨h1, h2, h3, h4⟩ := levelOf_min_spec (riskTotalScore labs now)
  refine ⟨?_, h1, h2, h3, h4, ?_⟩
  · show min (riskTotalScore labs now) 100 = _
    rw [riskTotalScore_eq_sum]
    rfl
  · intro hcc hac hmm
    have ht : riskTotalScore labs now = 33 := by
      simp only [riskTotalScore, hcc, hac, hmm]
      norm_num
    constructor
    · show min (riskTotalScore labs now) 100 = 33
      rw [ht]
      omega
    · show levelOf (riskTotalScore labs now) = Level.low
      rw [ht]
      decide

/-- Three recent results — two critical, one abnormal — whose codes match no
marker pattern. -/
def labs3 : List LabResult :=
  [{ code := "x", name := "X", value := .num 1, unit := "u",
     status := .critical, effectiveDateTime := 0 },
   { code := "x", name := "X", value := .num 1, unit := "u",
     status := .critical, effectiveDateTime := 0 },
   { code := "x", name := "X", value := .num 1, unit := "u",
     status := .abnormal, effectiveDateTime := 0 }]

/-- Witness for C1 at the 2-critical + 1-abnormal example. -/
theorem calculatePatientRisk_spec_witness :
    (calculatePatientRisk labs3 0).score = 33 ∧
      (calculatePatientRisk labs3 0).level = Level.low := by
  have hrec : recentFilter labs3 0 = labs3 := by
    norm_num [recentFilter, labs3, List.filter]
  exact (calculatePatientRisk_spec labs3 0).2.2.2.2.2
    (by rw [hrec]; decide) (by rw [hrec]; decide) (by rw [hrec]; decide)


/-- The trend classification rule, stated against the derived `delta` and
`deltaPercent` of the emitted trend. -/
theorem classifyTrend_spec (c : ℚ) (pv : Option ℚ) :
    (classifyTrend c pv = TrendDir.stable ↔
      (pv = none ∨
        ∃ q, Option.map (fun p => jsPercent (c - p) p) pv = some (JsNum.fin q) ∧ |q| < 5)) ∧
    (∀ d, Option.map (fun p => c - p) pv = some d → classifyTrend c pv ≠ TrendDir.stable →
      ((0 < d → classifyTrend c pv = TrendDir.rising) ∧
       (d ≤ 0 → classifyTrend c pv = TrendDir.falling))) := by
  cases pv with
  | none => simp [classifyTrend]
  | some p =>
    simp only [classifyTrend]
    by_cases habs : (jsPercent (c - p) p).absLt 5 = true
    · rw [if_pos habs]
      refine ⟨⟨fun _ => Or.inr ?_, fun _ => rfl⟩, fun d _ hne => absurd rfl hne⟩
      revert habs
      unfold JsNum.absLt
      cases hjp : jsPercent (c - p) p with
      | fin q => exact fun hq => ⟨q, by simp [hjp], of_decide_eq_true (by simpa using hq)⟩
      | posInf => simp
      | negInf => simp
      | nan => simp
    · have habs' : (jsPercent (c - p) p).absLt 5 = false := by
        cases hb : (jsPercent (c - p) p).absLt 5
        · rfl
        · exact absurd hb habs
      rw [if_neg (by simp [habs'])]
      constructor
      · constructor
        · intro hst
          by_cases hd : 0 < c - p
          · rw [if_pos hd] at hst
            exact absurd hst (by simp)
          · rw [if_neg hd] at hst
            exact absurd hst (by simp)
        · rintro (hnone | ⟨q, hq, hlt⟩)
          · exact absurd hnone (by simp)
          · simp only [Option.map_some', Option.some.injEq] at hq
            have hfin : (jsPercent (c - p) p).absLt 5 = true := by
              unfold JsNum.absLt
              rw [hq]
              exact decide_eq_true hlt
            rw [habs'] at hfin
            exact absurd hfin (by simp)
      · intro d hd hne
        simp only [Option.map_some', Option.some.injEq] at hd
        subst hd
        constructor
        · intro hpos
          rw [if_pos hpos]
        · intro hle
          rw [if_neg (not_lt.mpr hle)]

/-- Trend classification of a single emitted trend, through `mkTrendOf`. -/
theorem mkTrendOf_trend_spec (labName : String) (results : List LabResult) (t : LabTrend)
    (h : mkTrendOf labName results = some t) :
    (t.trend = TrendDir.stable ↔
      (t.previousValue = none ∨ ∃ q, t.deltaPercent = some (JsNum.fin q) ∧ |q| < 5)) ∧
    (∀ d, t.delta = some d → t.trend ≠ TrendDir.stable →
      ((0 < d → t.trend = TrendDir.rising) ∧ (d ≤ 0 → t.trend = TrendDir.falling))) := by
  cases hnum : (sortByTimeDesc results).filter (fun r => r.value.isNum) with
  | nil => simp [mkTrendOf, hnum] at h
  | cons cur rest =>
    simp only [mkTrendOf, hnum] at h
    obtain rfl := (Option.some.injEq _ _).mp h
    exact classifyTrend_spec cur.value.toNum (rest.head?.map (fun r => r.value.toNum))

/-- Two results of one analyte, the newer 3% above the older. -/
def trendLabsStable : List LabResult :=
  [{ code := "k", name := "K", value := .num 10.3, unit := "u",
     status := .normal, effectiveDateTime := 2 },
   { code := "k", name := "K", value := .num 10.0, unit := "u",
     status := .normal, effectiveDateTime := 1 }]

/-- Two results of one analyte, the newer 6% above the older. -/
def trendLabsRising : List LabResult :=
  [{ code := "k", name := "K", value := .num 10.6, unit := "u",
     status := .normal, effectiveDateTime := 2 },
   { code := "k", name := "K", value := .num 10.0, unit := "u",
     status := .normal, effectiveDateTime := 1 }]

/-- Two results of one analyte with previous value 0 (division by zero in the
percent change). -/
def trendLabsZeroPrev : List LabResult :=
  [{ code := "k", name := "K", value := .num 1, unit := "u",
     status := .normal, effectiveDateTime := 2 },
   { code := "k", name := "K", value := .num 0, unit := "u",
     status := .normal, effectiveDateTime := 1 }]

/-- Claim C2: every trend emitted by `processLabTrends` is stable iff the
previous numeric value is absent or the finite `deltaPercent` has magnitude
below 5, and otherwise is rising when `delta > 0` and falling when
`delta ≤ 0`; a 3% two-point change yields stable, a 6% upward change yields
rising, and a zero previous value is handled without crashing (infinite
percent change, here classified rising). -/
theorem processLabTrends_trend_spec :
    (∀ labs : List LabResult, ∀ t ∈ processLabTrends labs,
      (t.trend = TrendDir.stable ↔
        (t.previousValue = none ∨ ∃ q, t.deltaPercent = some (JsNum.fin q) ∧ |q| < 5)) ∧
      (∀ d, t.delta = some d → t.trend ≠ TrendDir.stable →
        ((0 < d → t.trend = TrendDir.rising) ∧ (d ≤ 0 → t.trend = TrendDir.falling)))) ∧
    (processLabTrends trendLabsStable).map (fun t => t.trend) = [TrendDir.stable] ∧
    (processLabTrends trendLabsRising).map (fun t => t.trend) = [TrendDir.rising] ∧
    (processLabTrends trendLabsZeroPrev).map (fun t => t.trend) = [TrendDir.rising] := by
  refine ⟨?_, ?_, ?_, ?_⟩
  · intro labs t ht
    obtain ⟨p, _, hp⟩ := List.mem_filterMap.mp ht
    exact mkTrendOf_trend_spec p.1 p.2 t hp
  all_goals
    norm_num [processLabTrends, groupLabsByType, List.foldl_cons, List.foldl_nil,
      List.any_cons, List.any_nil, List.filterMap_cons, List.filterMap_nil,
      mkTrendOf, sortByTimeDesc, insertDesc, List.filter_cons, List.filter_nil,
      JsValue.isNum, JsValue.toNum, classifyTrend, jsPercent, JsNum.absLt,
      trendLabsStable, trendLabsRising, trendLabsZeroPrev]

/-- The trend emitted for `trendLabsStable`. -/
def tStable : LabTrend :=
  { labName := "K", code := "k", unit := "u",
    data := [(1, 10, .normal), (2, 10.3, .normal)],
    currentValue := 10.3, previousValue := some 10, delta := some 0.3,
    deltaPercent := some (.fin 3), trend := .stable }

/-- Witness for C2 at the 3% example. -/
theorem processLabTrends_trend_spec_witness :
    tStable ∈ processLabTrends trendLabsStable ∧
    (tStable.trend = TrendDir.stable ↔
      (tStable.previousValue = none ∨
        ∃ q, tStable.deltaPercent = some (JsNum.fin q) ∧ |q| < 5)) := by
  have hm : tStable ∈ processLabTrends trendLabsStable := by
    norm_num [processLabTrends, groupLabsByType, List.foldl_cons, List.foldl_nil,
      List.any_cons, List.any_nil, List.filterMap_cons, List.filterMap_nil,
      mkTrendOf, sortByTimeDesc, insertDesc, List.filter_cons, List.filter_nil,
      JsValue.isNum, JsValue.toNum, classifyTrend, jsPercent, JsNum.absLt,
      trendLabsStable, tStable]
  exact ⟨hm, (processLabTrends_trend_spec.1 trendLabsStable tStable hm).1⟩

/-! ## Claim C3 -/

/-- Counterexample to C3 as stated: for the well-formed range `[10, 20]` and
value `3`, we have `v ≤ high`, yet the range rule escalates the status — all
the way to critical, via the low bound (`3 < 10 × 0.5`). -/
theorem rangeStatus_le_high_escalates :
    (3 : ℚ) ≤ 20 ∧
    rangeStatus (some 3) (some { low := some 10, high := some 20 }) = Status.critical := by
  constructor
  · norm_num
  · simp only [rangeStatus, lowStatus]
    norm_num

/-- Claim C3 (amended): over a well-formed reference range (nonnegative
bounds, `low ≤ high` when both are present): values above `high × 1.5` are
critical, values in `(high, high × 1.5]` abnormal, values below `low × 0.5`
critical, values in `[low × 0.5, low)` abnormal; and a value at or below
`high` is left unescalated by the range rule only when it is also at or above
a present `low` bound. -/
theorem rangeStatus_spec (v : ℚ) (lo hi : Option ℚ) :
    (∀ h, hi = some h → 0 ≤ h → h * 1.5 < v →
      rangeStatus (some v) (some { low := lo, high := hi }) = Status.critical) ∧
    (∀ h, hi = some h → h < v → v ≤ h * 1.5 →
      rangeStatus (some v) (some { low := lo, high := hi }) = Status.abnormal) ∧
    (∀ h, hi = some h → v ≤ h → (lo = none ∨ ∃ l, lo = some l ∧ l ≤ v) →
      rangeStatus (some v) (some { low := lo, high := hi }) = Status.normal) ∧
    (∀ l, lo = some l → 0 ≤ l → (∀ h, hi = some h → l ≤ h) → v < l * 0.5 →
      rangeStatus (some v) (some { low := lo, high := hi }) = Status.critical) ∧
    (∀ l, lo = some l → l * 0.5 ≤ v → v < l → (∀ h, hi = some h → l ≤ h) →
      rangeStatus (some v) (some { low := lo, high := hi }) = Status.abnormal) := by
  refine ⟨?_, ?_, ?_, ?_, ?_⟩
  · rintro h rfl hpos hv
    have hhv : h < v := lt_of_le_of_lt (by nlinarith) hv
    simp only [rangeStatus, if_pos hhv, if_pos hv]
  · rintro h rfl hhv hle
    simp only [rangeStatus, if_pos hhv, if_neg (not_lt.mpr hle)]
  · rintro h rfl hvh hlo
    simp only [rangeStatus, if_neg (not_lt.mpr hvh)]
    rcases hlo with rfl | ⟨l, rfl, hlv⟩
    · rfl
    · simp only [lowStatus, if_neg (not_lt.mpr hlv)]
  · rintro l rfl hl hlh hv
    have hvl : v < l := lt_of_lt_of_le hv (by nlinarith)
    cases hi with
    | none =>
      simp only [rangeStatus, lowStatus, if_pos hvl, if_pos hv]
    | some h =>
      have hvh : ¬ h < v := not_lt.mpr (le_trans hvl.le (hlh h rfl))
      simp only [rangeStatus, if_neg hvh, lowStatus, if_pos hvl, if_pos hv]
  · rintro l rfl hge hvl hlh
    cases hi with
    | none =>
      simp only [rangeStatus, lowStatus, if_pos hvl, if_neg (not_lt.mpr hge)]
    | some h =>
      have hvh : ¬ h < v := not_lt.mpr (le_trans hvl.le (hlh h rfl))
      simp only [rangeStatus, if_neg hvh, lowStatus, if_pos hvl, if_neg (not_lt.mpr hge)]

/-- Witness for amended C3: value 31 against range `[10, 20]` is critical
(above `20 × 1.5`). -/
theorem rangeStatus_spec_witness :
    (0 : ℚ) ≤ 20 ∧ (20 : ℚ) * 1.5 < 31 ∧
    rangeStatus (some 31) (some { low := some 10, high := some 20 }) = Status.critical :=
  ⟨by norm_num, by norm_num,
    (rangeStatus_spec 31 (some 10) (some 20)).1 20 rfl (by norm_num) (by norm_num)⟩

/-! ## Claim C4 -/

/-- Counterexample to C4 as stated: the name "Potassium Sodium" contains the
table key "sodium", and the value 5 is below Sodium's defined low bound 120,
yet the final status is normal — the table consults only the first matching
key (Potassium, whose range contains 5). -/
theorem transformStatus_first_key_only :
    containsLC "Potassium Sodium" "sodium" = true ∧
    ("sodium", (some (120 : ℚ), some (160 : ℚ))) ∈ criticalRanges ∧
    (5 : ℚ) < 120 ∧
    transformStatus "Potassium Sodium" (some 5) none = Status.normal := by
  have h1 : containsLC "Potassium Sodium" "potassium" = true := by decide
  have hfind : criticalRanges.find? (fun e => containsLC "Potassium Sodium" e.1) =
      some ("potassium", some 2.5, some 6.5) := by
    rw [criticalRanges]
    exact List.find?_cons_of_pos _ h1
  refine ⟨by decide, by simp [criticalRanges], by norm_num, ?_⟩
  simp only [transformStatus, hfind, rangeStatus]
  norm_num

/-- Claim C4 (amended): when the first key of the critical-range table (in
table order: potassium, sodium, glucose, hemoglobin, platelet, creatinine)
contained case-insensitively in the analyte name has a defined bound that the
numeric value violates, the final status is critical; and the table check
never downgrades a status the range rule already set to critical. -/
theorem transformStatus_table_spec :
    (∀ labName v refRange key lo hi,
      criticalRanges.find? (fun e => containsLC labName e.1) = some (key, lo, hi) →
      ((∃ h, hi = some h ∧ h < v) ∨ (∃ l, lo = some l ∧ v < l)) →
      transformStatus labName (some v) refRange = Status.critical) ∧
    (∀ labName value refRange,
      rangeStatus value refRange = Status.critical →
      transformStatus labName value refRange = Status.critical) := by
  constructor
  · intro labName v refRange key lo hi hfind hviol
    have hcond : (hi.any (fun h => decide (h < v)) || lo.any (fun l => decide (v < l))) = true := by
      rcases hviol with ⟨h, rfl, hv⟩ | ⟨l, rfl, hv⟩ <;> simp [hv]
    simp [transformStatus, hfind, hcond]
  · intro labName value refRange hs
    cases hf : criticalRanges.find? (fun e => containsLC labName e.1) with
    | none => simp [transformStatus, hf, hs]
    | some e =>
      obtain ⟨k, lo, hi⟩ := e
      cases value with
      | none => simp [transformStatus, hf, hs]
      | some v =>
        simp only [transformStatus, hf, hs]
        split <;> rfl

/-- Witness for amended C4: the name "Potassium" with value 7 (above
Potassium's high bound 6.5) is forced to critical. -/
theorem transformStatus_table_spec_witness :
    (6.5 : ℚ) < 7 ∧ transformStatus "Potassium" (some 7) none = Status.critical := by
  have h1 : containsLC "Potassium" "potassium" = true := by decide
  have hfind : criticalRanges.find? (fun e => containsLC "Potassium" e.1) =
      some ("potassium", some 2.5, some 6.5) := by
    rw [criticalRanges]
    exact List.find?_cons_of_pos _ h1
  exact ⟨by norm_num,
    transformStatus_table_spec.1 "Potassium" 7 none "potassium" (some 2.5) (some 6.5) hfind
      (Or.inl ⟨6.5, rfl, by norm_num⟩)⟩

/-! ## Claim C5 -/

/-- A normal creatinine result appearing first in the window. -/
def akiLab1 : LabResult :=
  { code := "creatinine", name := "Creatinine", value := .num 1, unit := "mg/dL",
    status := .normal, effectiveDateTime := 0 }

/-- A critical creatinine result with value above 2.0, appearing second. -/
def akiLab2 : LabResult :=
  { code := "creatinine", name := "Creatinine", value := .num 3, unit := "mg/dL",
    status := .critical, effectiveDateTime := 0 }

/-- Both creatinine results, in window order. -/
def akiLabs : List LabResult := [akiLab1, akiLab2]

/-- Counterexample to C5 as stated: the window contains a creatinine-coded,
non-normal result with numeric value above 2.0 (`akiLab2`), yet no AKI Risk
marker fires and no High-Risk Markers factor is emitted — the pattern checks
only the first creatinine-coded result, which is normal here. -/
theorem checkHighRiskMarkers_first_only :
    containsLC akiLab2.code "creatinine" = true ∧
    akiLab2.status ≠ Status.normal ∧
    parseNum akiLab2.value = some 3 ∧ (2 : ℚ) < 3 ∧
    akiLab2 ∈ recentFilter akiLabs 0 ∧
    "AKI Risk" ∉ (checkHighRiskMarkers (recentFilter akiLabs 0)).markers ∧
    ((calculatePatientRisk akiLabs 0).factors.map (fun f => f.name)) = ["Critical Values"] := by
  have hrec : recentFilter akiLabs 0 = akiLabs := by
    norm_num [recentFilter, akiLabs, akiLab1, akiLab2, List.filter]
  have hcc : countCritical akiLabs = 1 := by decide
  have hab : countAbnormalStrict akiLabs = 0 := by decide
  have hmk : (checkHighRiskMarkers akiLabs).score = 0 := by decide
  refine ⟨by decide, by decide, by decide, by norm_num, ?_, ?_, ?_⟩
  · rw [hrec]
    decide
  · rw [hrec]
    decide
  · show (riskFactors akiLabs 0).map (fun f => f.name) = ["Critical Values"]
    simp only [riskFactors, hrec, hcc, hab, hmk]
    norm_num

/-- Claim C5 (amended): when the first creatinine-coded result of the
48-hour window is non-normal with numeric value above 2.0, the AKI Risk
pattern fires: it is listed among the high-risk markers, contributes at
least 15 to the marker score, and the High-Risk Markers factor of
`calculatePatientRisk` carries that marker score as its contribution. -/
theorem checkHighRiskMarkers_aki_spec (labs : List LabResult) (now : ℤ)
    (c : LabResult) (v : ℚ)
    (hfind : (recentFilter labs now).find? (fun l => containsLC l.code "creatinine") = some c)
    (hstat : c.status ≠ Status.normal)
    (hval : parseNum c.value = some v)
    (hv : 2 < v) :
    "AKI Risk" ∈ (checkHighRiskMarkers (recentFilter labs now)).markers ∧
    15 ≤ (checkHighRiskMarkers (recentFilter labs now)).score ∧
    ∃ f ∈ (calculatePatientRisk labs now).factors,
      f.name = "High-Risk Markers" ∧
      f.contribution = (checkHighRiskMarkers (recentFilter labs now)).score := by
  have haki : akiFlag (recentFilter labs now) = true := by
    simp only [akiFlag, hfind]
    simp [hstat, hval, hv]
  have hscore : 15 ≤ (checkHighRiskMarkers (recentFilter labs now)).score := by
    simp only [checkHighRiskMarkers, haki, if_true]
    exact Nat.le_add_right 15 _
  have hpos : 0 < (checkHighRiskMarkers (recentFilter labs now)).score :=
    lt_of_lt_of_le (by norm_num) hscore
  refine ⟨?_, hscore, ?_⟩
  · simp [checkHighRiskMarkers, haki]
  · refine ⟨{ name := "High-Risk Markers"
              weight := 0.40
              value := String.intercalate ", " (checkHighRiskMarkers (recentFilter labs now)).markers
              contribution := (checkHighRiskMarkers (recentFilter labs now)).score },
      ?_, rfl, rfl⟩
    show _ ∈ riskFactors labs now
    simp only [riskFactors]
    exact List.mem_append_right _ (List.mem_append_right _
      (by rw [if_pos hpos]; exact List.mem_singleton_self _))

/-- Witness for amended C5: a single critical creatinine result with value 3
is the first creatinine match and fires the AKI pattern. -/
theorem checkHighRiskMarkers_aki_spec_witness :
    "AKI Risk" ∈ (checkHighRiskMarkers (recentFilter [akiLab2] 0)).markers ∧
    15 ≤ (checkHighRiskMarkers (recentFilter [akiLab2] 0)).score ∧
    ∃ f ∈ (calculatePatientRisk [akiLab2] 0).factors,
      f.name = "High-Risk Markers" ∧
      f.contribution = (checkHighRiskMarkers (recentFilter [akiLab2] 0)).score := by
  have hrec : recentFilter [akiLab2] 0 = [akiLab2] := by
    norm_num [recentFilter, akiLab2, List.filter]
  exact checkHighRiskMarkers_aki_spec [akiLab2] 0 akiLab2 3
    (by rw [hrec]; decide) (by decide) (by decide) (by norm_num)

/-! ## Claim C6 -/

/-- Clamping to the integer interval `[6, 40]` commutes with rounding, so
the source's round-after-clamp equals the spec's clamp-after-round. -/
theorem round_clamp_eq (x : ℝ) :
    round (min (max x 6) 40) = min (max (round x) 6) 40 := by
  have hmono : ∀ a b : ℝ, a ≤ b → round a ≤ round b := by
    intro a b hab
    rw [round_eq, round_eq]
    exact Int.floor_le_floor (by linarith)
  have h6 : round ((6 : ℝ)) = 6 := by norm_num
  have h40 : round ((40 : ℝ)) = 40 := by norm_num
  rcases le_total x 6 with hx6 | hx6
  · rw [max_eq_right hx6, min_eq_left (by norm_num : (6 : ℝ) ≤ 40), h6]
    have hrx : round x ≤ 6 := h6 ▸ hmono x 6 hx6
    rw [max_eq_right hrx, min_eq_left (by norm_num : (6 : ℤ) ≤ 40)]
  · rw [max_eq_left hx6]
    have hr6 : 6 ≤ round x := h6 ▸ hmono 6 x hx6
    rw [max_eq_left hr6]
    rcases le_total x 40 with hx40 | hx40
    · rw [min_eq_left hx40, min_eq_left (h40 ▸ hmono x 40 hx40)]
    · rw [min_eq_right hx40, h40, min_eq_right (h40 ▸ hmono 40 x hx40)]

/-- Claim C6: `calculateMELD` returns no score exactly when one of the
(first) bilirubin-, inr- or creatinine-coded results is absent or carries a
non-numeric value; otherwise it returns the MELD formula value rounded to
the nearest integer and clamped to `[6, 40]`. -/
theorem calculateMELD_spec (labs : List LabResult) :
    (calculateMELD labs = none ↔
      (labs.find? (fun l => containsLC l.code "bilirubin") = none ∨
       labs.find? (fun l => containsLC l.code "inr") = none ∨
       labs.find? (fun l => containsLC l.code "creatinine") = none ∨
       (∃ b, labs.find? (fun l => containsLC l.code "bilirubin") = some b ∧
          parseNum b.value = none) ∨
       (∃ i, labs.find? (fun l => containsLC l.code "inr") = some i ∧
          parseNum i.value = none) ∨
       (∃ c, labs.find? (fun l => containsLC l.code "creatinine") = some c ∧
          parseNum c.value = none))) ∧
    (∀ b i c bv iv cv,
      labs.find? (fun l => containsLC l.code "bilirubin") = some b →
      labs.find? (fun l => containsLC l.code "inr") = some i →
      labs.find? (fun l => containsLC l.code "creatinine") = some c →
      parseNum b.value = some bv →
      parseNum i.value = some iv →
      parseNum c.value = some cv →
      calculateMELD labs = some (min (max (round (meldRaw bv iv cv)) 6) 40)) := by
  constructor
  · cases hb : labs.find? (fun l => containsLC l.code "bilirubin") with
    | none => simp [calculateMELD, hb]
    | some b =>
      cases hi2 : labs.find? (fun l => containsLC l.code "inr") with
      | none => simp [calculateMELD, hb, hi2]
      | some i =>
        cases hc : labs.find? (fun l => containsLC l.code "creatinine") with
        | none => simp [calculateMELD, hb, hi2, hc]
        | some c =>
          cases hpb : parseNum b.value with
          | none => simp [calculateMELD, hb, hi2, hc, hpb]
          | some bv =>
            cases hpi : parseNum i.value with
            | none => simp [calculateMELD, hb, hi2, hc, hpb, hpi]
            | some iv =>
              cases hpc : parseNum c.value with
              | none => simp [calculateMELD, hb, hi2, hc, hpb, hpi, hpc]
              | some cv => simp [calculateMELD, hb, hi2, hc, hpb, hpi, hpc]
  · intro b i c bv iv cv hb hi2 hc hpb hpi hpc
    simp only [calculateMELD, hb, hi2, hc, hpb, hpi, hpc]
    exact congrArg some (round_clamp_eq (meldRaw bv iv cv))

/-- A bilirubin result with value 1.0. -/
def bilirubinLab : LabResult :=
  { code := "bilirubin", name := "Bilirubin", value := .num 1, unit := "mg/dL",
    status := .normal, effectiveDateTime := 0 }

/-- An INR result with value 1.0. -/
def inrLab : LabResult :=
  { code := "inr", name := "INR", value := .num 1, unit := "",
    status := .normal, effectiveDateTime := 0 }

/-- A creatinine result with value 1.0. -/
def creatinineLab : LabResult :=
  { code := "creatinine", name := "Creatinine", value := .num 1, unit := "mg/dL",
    status := .normal, effectiveDateTime := 0 }

/-- The three MELD inputs at value 1.0. -/
def meldLabs : List LabResult := [bilirubinLab, inrLab, creatinineLab]

/-- Witness for C6: bilirubin = INR = creatinine = 1.0 gives MELD 6. -/
theorem calculateMELD_spec_witness : calculateMELD meldLabs = some 6 := by
  have hb : meldLabs.find? (fun l => containsLC l.code "bilirubin") = some bilirubinLab := by
    rw [meldLabs]
    exact List.find?_cons_of_pos _ (by decide)
  have hi2 : meldLabs.find? (fun l => containsLC l.code "inr") = some inrLab := by
    rw [meldLabs]
    rw [List.find?_cons_of_neg _ (by decide)]
    exact List.find?_cons_of_pos _ (by decide)
  have hc : meldLabs.find? (fun l => containsLC l.code "creatinine") = some creatinineLab := by
    rw [meldLabs]
    rw [List.find?_cons_of_neg _ (by decide), List.find?_cons_of_neg _ (by decide)]
    exact List.find?_cons_of_pos _ (by decide)
  have h := (calculateMELD_spec meldLabs).2 bilirubinLab inrLab creatinineLab 1 1 1
    hb hi2 hc rfl rfl rfl
  rw [h]
  have hraw : meldRaw 1 1 1 = 6.43 := by
    unfold meldRaw
    norm_num
  rw [hraw]
  have hr : round ((6.43 : ℝ)) = 6 := by
    rw [round_eq]
    norm_num [Int.floor_eq_iff]
  rw [hr]
  norm_num

/-! ## Claim C7 -/

/-- Percent rise above `c` between two results' numeric values (false when
either value is non-numeric), with JS division-by-zero semantics. -/
def pctRise (cur prev : LabResult) (c : ℚ) : Bool :=
  match parseNum cur.value, parseNum prev.value with
  | some cv, some pv => (jsPercent (cv - pv) pv).gtb c
  | _, _ => false

/-- The per-result worsening contribution as the claim words it: for a
code-matched previous result, one point for a status escalation (to critical
from non-critical, or to abnormal from normal), plus one for a
creatinine-coded rise above 25%, plus one for a lactate-coded rise above
20%; zero without a match. -/
def worseningSpecCount (previousLabs : List LabResult) (cur : LabResult) : ℕ :=
  match previousLabs.find? (fun p => p.code = cur.code) with
  | none => 0
  | some prev =>
    (if (cur.status = Status.critical ∧ prev.status ≠ Status.critical) ∨
        (cur.status = Status.abnormal ∧ prev.status = Status.normal) then 1 else 0) +
    ((if containsLC cur.code "creatinine" && pctRise cur prev 25 then 1 else 0) +
     (if containsLC cur.code "lactate" && pctRise cur prev 20 then 1 else 0))

/-- An else-if chain of two unit contributions collapses to a disjunction. -/
theorem ite_or_split (a b : Prop) [Decidable a] [Decidable b] :
    (if a then (1 : ℕ) else if b then 1 else 0) = if a ∨ b then 1 else 0 := by
  by_cases ha : a
  · simp [ha]
  · by_cases hb : b <;> simp [ha, hb]

/-- The source's sequential per-result accumulation agrees with the claim's
per-result count. -/
theorem worseningOf_eq_spec (previousLabs : List LabResult) (cur : LabResult) :
    worseningOf previousLabs cur = worseningSpecCount previousLabs cur := by
  unfold worseningOf worseningSpecCount pctRise
  cases hf : previousLabs.find? (fun p => p.code = cur.code) with
  | none => rfl
  | some prev =>
    dsimp only
    rw [ite_or_split]
    congr 1
    cases hpc : parseNum cur.value <;> cases hpp : parseNum prev.value <;> simp [hpc, hpp]

/-- Claim C7: `detectDeterioration` is false on an empty baseline, and
otherwise true exactly when the total worsening count — status escalations
plus creatinine rises above 25% plus lactate rises above 20%, over
code-matched current results — reaches 3. -/
theorem detectDeterioration_spec (currentLabs previousLabs : List LabResult) :
    (previousLabs = [] → detectDeterioration currentLabs previousLabs = false) ∧
    (previousLabs ≠ [] →
      (detectDeterioration currentLabs previousLabs = true ↔
        3 ≤ (currentLabs.map (worseningSpecCount previousLabs)).sum)) := by
  constructor
  · rintro rfl
    rfl
  · intro hne
    have hlen : ¬ previousLabs.length = 0 := by simpa using hne
    unfold detectDeterioration
    rw [if_neg hlen]
    have hfold : ∀ (l : List LabResult) (a : ℕ),
        l.foldl (fun acc cur => acc + worseningOf previousLabs cur) a =
          a + (l.map (worseningSpecCount previousLabs)).sum := by
      intro l
      induction l with
      | nil => intro a; simp
      | cons x xs ih =>
        intro a
        rw [List.foldl_cons, ih, worseningOf_eq_spec]
        simp only [List.map_cons, List.sum_cons]
        omega
    rw [hfold]
    simp

/-- Baseline sodium result, normal. -/
def prevNaLab : LabResult :=
  { code := "sodium", name := "Sodium", value := .num 140, unit := "mmol/L",
    status := .normal, effectiveDateTime := 0 }

/-- Baseline creatinine result, normal, value 1.0. -/
def prevCrLab : LabResult :=
  { code := "creatinine", name := "Creatinine", value := .num 1, unit := "mg/dL",
    status := .normal, effectiveDateTime := 0 }

/-- Baseline lactate result, normal, value 1.0. -/
def prevLaLab : LabResult :=
  { code := "lactate", name := "Lactate", value := .num 1, unit := "mmol/L",
    status := .normal, effectiveDateTime := 0 }

/-- Current sodium result, escalated to abnormal. -/
def curNaLab : LabResult :=
  { code := "sodium", name := "Sodium", value := .num 150, unit := "mmol/L",
    status := .abnormal, effectiveDateTime := 10 }

/-- Current creatinine result, +30%. -/
def curCrLab : LabResult :=
  { code := "creatinine", name := "Creatinine", value := .num 1.3, unit := "mg/dL",
    status := .normal, effectiveDateTime := 10 }

/-- Current lactate result, +25%. -/
def curLaLab : LabResult :=
  { code := "lactate", name := "Lactate", value := .num 1.25, unit := "mmol/L",
    status := .normal, effectiveDateTime := 10 }

/-- The baseline collection. -/
def prevDetLabs : List LabResult := [prevNaLab, prevCrLab, prevLaLab]

/-- The current collection: three independent worsening transitions. -/
def curDetLabs : List LabResult := [curNaLab, curCrLab, curLaLab]

/-- Witness for C7: three independent matched escalations flag
deterioration. -/
theorem detectDeterioration_spec_witness :
    detectDeterioration curDetLabs prevDetLabs = true := by
  have w1 : worseningSpecCount prevDetLabs curNaLab = 1 := by
    have hfind : prevDetLabs.find? (fun p => p.code = curNaLab.code) = some prevNaLab := by
      rw [prevDetLabs]
      exact List.find?_cons_of_pos _ (by decide)
    have hc1 : containsLC curNaLab.code "creatinine" = false := by decide
    have hc2 : containsLC curNaLab.code "lactate" = false := by decide
    simp only [worseningSpecCount, hfind, hc1, hc2]
    norm_num [curNaLab, prevNaLab]
  have w2 : worseningSpecCount prevDetLabs curCrLab = 1 := by
    have hfind : prevDetLabs.find? (fun p => p.code = curCrLab.code) = some prevCrLab := by
      rw [prevDetLabs]
      rw [List.find?_cons_of_neg _ (by decide)]
      exact List.find?_cons_of_pos _ (by decide)
    have hc1 : containsLC curCrLab.code "creatinine" = true := by decide
    have hc2 : containsLC curCrLab.code "lactate" = false := by decide
    simp only [worseningSpecCount, hfind, hc1, hc2]
    norm_num [curCrLab, prevCrLab, pctRise, parseNum, jsPercent, JsNum.gtb]
    decide
  have w3 : worseningSpecCount prevDetLabs curLaLab = 1 := by
    have hfind : prevDetLabs.find? (fun p => p.code = curLaLab.code) = some prevLaLab := by
      rw [prevDetLabs]
      rw [List.find?_cons_of_neg _ (by decide), List.find?_cons_of_neg _ (by decide)]
      exact List.find?_cons_of_pos _ (by decide)
    have hc1 : containsLC curLaLab.code "creatinine" = false := by decide
    have hc2 : containsLC curLaLab.code "lactate" = true := by decide
    simp only [worseningSpecCount, hfind, hc1, hc2]
    norm_num [curLaLab, prevLaLab, pctRise, parseNum, jsPercent, JsNum.gtb]
    decide
  have hsum : (curDetLabs.map (worseningSpecCount prevDetLabs)).sum = 3 := by
    rw [curDetLabs]
    simp [w1, w2, w3]
  exact ((detectDeterioration_spec curDetLabs prevDetLabs).2 (by decide)).mpr
    (by rw [hsum])

/-! ## Claim C9 -/

/-- Counterexample to C9 as stated: `calculatePatientRisk` reads the wall
clock — the same single-critical-result collection scores 30 when the result
is current and 0 when the clock has advanced three days past it. -/
theorem calculatePatientRisk_clock_dependent :
    (calculatePatientRisk [critLab] 0).score = 30 ∧
    (calculatePatientRisk [critLab] 259200000).score = 0 ∧
    calculatePatientRisk [critLab] 0 ≠ calculatePatientRisk [critLab] 259200000 := by
  have h1 : recentFilter [critLab] 0 = [critLab] := by
    norm_num [recentFilter, critLab, List.filter]
  have h2 : recentFilter [critLab] 259200000 = [] := by
    norm_num [recentFilter, critLab, List.filter]
  have hfind : [critLab].find? (fun l => containsLC l.code "creatinine") = some critLab :=
    List.find?_cons_of_pos _ (by decide)
  have haki : akiFlag [critLab] = true := by
    simp only [akiFlag, hfind]
    norm_num [critLab, parseNum]
    decide
  have hsep : sepsisFlag [critLab] = false := by decide
  have hhep : hepaticFlag [critLab] = false := by decide
  have hcoag : coagFlag [critLab] = false := by decide
  have hs1 : (calculatePatientRisk [critLab] 0).score = 30 := by
    show min (riskTotalScore [critLab] 0) 100 = 30
    simp only [riskTotalScore, h1, checkHighRiskMarkers, haki, hsep, hhep, hcoag]
    decide
  have hs2 : (calculatePatientRisk [critLab] 259200000).score = 0 := by
    show min (riskTotalScore [critLab] 259200000) 100 = 0
    simp only [riskTotalScore, h2]
    decide
  refine ⟨hs1, hs2, fun he => ?_⟩
  rw [congrArg RiskScore.score he, hs2] at hs1
  exact absurd hs1 (by norm_num)

/-- Claim C9 (amended): every derivation function is deterministic in its
inputs, with the current time an explicit input where the source reads the
clock; the clock enters patient risk scoring only through the 48-hour
recency filter and the weekly summary only through the 7-day filter (the
remaining derivations take no clock input at all). -/
theorem derivations_clock_only_through_window :
    (∀ (labs : List LabResult) (n n' : ℤ),
      recentFilter labs n = recentFilter labs n' →
      calculatePatientRisk labs n = calculatePatientRisk labs n') ∧
    (∀ (labs : List LabResult) (n n' : ℤ),
      weekFilter labs n = weekFilter labs n' →
      getRecentLabsSummary labs n = getRecentLabsSummary labs n') := by
  constructor
  · intro labs n n' h
    unfold calculatePatientRisk riskTotalScore riskFactors
    rw [h]
  · intro labs n n' h
    unfold getRecentLabsSummary
    rw [h]

/-- Witness for amended C9: with the recency windows unchanged between two
instants, both clocked derivations agree. -/
theorem derivations_clock_only_through_window_witness :
    calculatePatientRisk [critLab] 0 = calculatePatientRisk [critLab] 1000 ∧
    getRecentLabsSummary [critLab] 0 = getRecentLabsSummary [critLab] 1000 := by
  constructor
  · exact derivations_clock_only_through_window.1 [critLab] 0 1000
      (by norm_num [recentFilter, critLab, List.filter])
  · exact derivations_clock_only_through_window.2 [critLab] 0 1000
      (by norm_num [weekFilter, critLab, List.filter])
